import Mathlib

/-!
Shallow embedding of the task-manager API core (`src/main.py`) and of the
collaborator modules it imports (`crud`, `auth`, `schemas`), which are not
part of the source tree and are therefore modelled from the specification.

The route handlers in `src/main.py` are translated function by function.
A notable point of the translation: in `main.py` the route handlers
`update_task` and `delete_task` shadow the `crud` functions of the same
name that were imported at the top of the file, so the calls
`update_task(db=db, task_id=task_id, task=task)` and
`delete_task(db=db, task_id=task_id)` inside the handler bodies resolve to
the handler functions themselves, with `current_user` left at its default
value, the `Depends(get_current_user)` marker object.  The embedding keeps
this self-call and models attribute access `.id` on the marker object as
an AttributeError crash, exactly as Python evaluates it.
-/

namespace TaskApi

/-- A stored user row (spec section 3): numeric id, unique email, password hash. -/
structure User where
  id : Int
  email : String
  hashed_password : String
deriving Repr, DecidableEq

/-- A stored task row (spec section 3). -/
structure Task where
  id : Int
  owner_id : Int
  title : String
  description : Option String
  status : String
  priority : Int
  created_at : Nat
deriving Repr, DecidableEq

/-- The relational store visible to the API: user rows and task rows. -/
structure DB where
  users : List User
  tasks : List Task
deriving Repr, DecidableEq

/-- Modelled from the spec: the `schemas.UserCreate` request body for
`POST /register/` carries an email and a plaintext password. -/
structure UserCreate where
  email : String
  password : String
deriving Repr, DecidableEq

/-- Modelled from the spec: the `schemas.TaskCreate` request body for
`POST /tasks/` carries the task fields with `priority` optional; the owner
is not part of the body (it is taken from the resolved identity). -/
structure TaskCreate where
  title : String
  description : Option String
  status : String
  priority : Option Int
deriving Repr, DecidableEq

/-- Modelled from the spec: the `schemas.TaskUpdate` body for
`PUT /tasks/{id}` is a partial or full update of the task fields. -/
structure TaskUpdate where
  title : Option String
  description : Option String
  status : Option String
  priority : Option Int
deriving Repr, DecidableEq

/-- The `schemas.Token` response body of `POST /token`. -/
structure Token where
  access_token : String
  token_type : String
deriving Repr, DecidableEq

/-- Outcome of a route handler: a 200 body, an `HTTPException` with a
status code, a detail string and extra headers, or an unhandled Python
exception (which FastAPI surfaces as a 500). -/
inductive Resp (α : Type) where
  | ok (body : α)
  | err (status_code : Nat) (detail : String) (headers : List (String × String))
  | crash (msg : String)
deriving Repr, DecidableEq

/-- Modelled from the spec: `crud.get_task` fetches the task row with the
given id, or nothing when no such row exists. -/
def get_task (db : DB) (task_id : Int) : Option Task :=
  db.tasks.find? (fun t => decide (t.id = task_id))

/-- Modelled from the spec: `crud.get_user_by_email` fetches the user row
with the given (case-sensitive) email, or nothing. -/
def get_user_by_email (db : DB) (email : String) : Option User :=
  db.users.find? (fun u => decide (u.email = email))

/-- `GET /tasks/{task_id}`: fetch by id; 404 when absent; 400 when the
owner differs from the authenticated user; otherwise the task. -/
def read_task (db : DB) (task_id : Int) (current_user : User) : Resp Task :=
  match get_task db task_id with
  | none => .err 404 "Task not found" []
  | some db_task =>
    if db_task.owner_id ≠ current_user.id then .err 400 "Not enough permissions" []
    else .ok db_task

/-- Modelled from the spec: `auth.get_password_hash` is the one-way hash of
the Password Hasher; the model keeps it as an executable tagging function,
abstracting the salted slow hash. -/
def get_password_hash (plaintext : String) : String :=
  "hashed:" ++ plaintext

/-- Modelled from the spec: `auth.verify_password` checks a plaintext
password against a stored hash. -/
def verify_password (plaintext stored_hash : String) : Bool :=
  decide (stored_hash = get_password_hash plaintext)

/-- Modelled from the spec: `auth.authenticate_user` looks the user up by
email and verifies the password against the stored hash; any failure
yields no user. -/
def authenticate_user (db : DB) (username password : String) : Option User :=
  match get_user_by_email db username with
  | none => none
  | some u => if verify_password password u.hashed_password then some u else none

/-- Modelled from the spec: `auth.create_access_token` issues a signed
bearer token whose subject is the given email; the model keeps the token
as an executable tagging of the subject. -/
def create_access_token (sub : String) : String :=
  "token:" ++ sub

/-- Modelled from the spec: `crud.create_user` stores a new user row with
a fresh id and the hashed password, returning the created user. -/
def create_user (db : DB) (user : UserCreate) : User × DB :=
  let new_id : Int := db.users.foldr (fun u m => max u.id m) 0 + 1
  let nu : User := { id := new_id, email := user.email,
                     hashed_password := get_password_hash user.password }
  (nu, { db with users := db.users ++ [nu] })

/-- `POST /register/`: 400 when the email is already registered (and the
store is unchanged), otherwise the created user. -/
def register (db : DB) (user : UserCreate) : Resp User × DB :=
  match get_user_by_email db user.email with
  | some _ => (.err 400 "Email already registered" [], db)
  | none =>
    let p := create_user db user
    (.ok p.1, p.2)

/-- `POST /token`: 401 with a `WWW-Authenticate: Bearer` header on failed
authentication, otherwise a bearer token for the user. -/
def login_for_access_token (db : DB) (username password : String) : Resp Token :=
  match authenticate_user db username password with
  | none => .err 401 "Incorrect username or password" [("WWW-Authenticate", "Bearer")]
  | some user => .ok { access_token := create_access_token user.email, token_type := "bearer" }

/-- Modelled from the spec: `crud.create_user_task` persists the given
fields as a new task row owned by `user_id`; storage assigns the id and
the creation timestamp, and (per the data model) priority defaults to 1
when unset at creation. -/
def create_user_task (db : DB) (task : TaskCreate) (user_id : Int) : Task × DB :=
  let new_id : Int := db.tasks.foldr (fun t m => max t.id m) 0 + 1
  let nt : Task := { id := new_id, owner_id := user_id, title := task.title,
                     description := task.description, status := task.status,
                     priority := task.priority.getD 1,
                     created_at := db.tasks.length }
  (nt, { db with tasks := db.tasks ++ [nt] })

/-- `POST /tasks/`: when the body has no priority it is set to 1, then the
task is stored for the authenticated user. -/
def create_task (db : DB) (task : TaskCreate) (current_user : User) : Task × DB :=
  let task1 := if task.priority = none then { task with priority := some 1 } else task
  create_user_task db task1 current_user.id

/-- Boolean infix test on character lists, used for substring search. -/
def containsSub : List Char → List Char → Bool
  | needle, [] => needle.isEmpty
  | needle, c :: rest => needle.isPrefixOf (c :: rest) || containsSub needle rest

/-- Case-insensitive substring containment of `needle` in `hay`. -/
def strContainsCI (needle hay : String) : Bool :=
  containsSub needle.toLower.toList hay.toLower.toList

/-- Modelled from the spec: the comparison used by the Task Query Engine
for the allow-listed sort keys (priority, title, creation time), with id
as deterministic tie-break; an unknown or absent `sort_by` falls back to
id ascending, and `sort_order = "desc"` flips the comparison. -/
def queryLe (sort_by sort_order : Option String) (a b : Task) : Bool :=
  let asc : Task → Task → Bool :=
    match sort_by with
    | some "priority" => fun a b =>
        decide (a.priority < b.priority) ||
          (decide (a.priority = b.priority) && decide (a.id ≤ b.id))
    | some "title" => fun a b =>
        decide (a.title < b.title) || (decide (a.title = b.title) && decide (a.id ≤ b.id))
    | some "created_at" => fun a b =>
        decide (a.created_at < b.created_at) ||
          (decide (a.created_at = b.created_at) && decide (a.id ≤ b.id))
    | _ => fun a b => decide (a.id ≤ b.id)
  match sort_order with
  | some "desc" => asc b a
  | _ => asc a b

/-- Restriction of a row list to a status value, when one is requested. -/
def filterStatus (status : Option String) (l : List Task) : List Task :=
  match status with
  | none => l
  | some s => l.filter (fun t => decide (t.status = s))

/-- Restriction of a row list to titles containing the search string,
case-insensitively, when one is requested. -/
def filterSearch (search : Option String) (l : List Task) : List Task :=
  match search with
  | none => l
  | some q => l.filter (fun t => strContainsCI q t.title)

/-- Modelled from the spec: `crud.get_user_tasks`, the Task Query Engine.
Rows are restricted to the owner, then filtered by status equality and by
case-insensitive substring search on the title, ordered by the requested
key, and paginated with skip and limit. -/
def get_user_tasks (db : DB) (user_id : Int) (skip limit : Nat)
    (sort_by sort_order search status : Option String) : List Task :=
  ((List.insertionSort (fun a b => queryLe sort_by sort_order a b = true)
      (filterSearch search
        (filterStatus status
          (db.tasks.filter (fun t => decide (t.owner_id = user_id)))))).drop skip).take limit

/-- `GET /tasks/`: the query engine applied to the authenticated user. -/
def read_tasks (db : DB) (skip limit : Nat)
    (sort_by sort_order search status : Option String) (current_user : User) : List Task :=
  get_user_tasks db current_user.id skip limit sort_by sort_order search status

/-- Priority ranking order: higher priority first, ties broken by id
ascending (a deterministic secondary key; ids increase with creation). -/
def topRel (a b : Task) : Prop :=
  b.priority < a.priority ∨ (a.priority = b.priority ∧ a.id ≤ b.id)

instance : DecidableRel topRel := fun a b =>
  inferInstanceAs (Decidable (b.priority < a.priority ∨
    (a.priority = b.priority ∧ a.id ≤ b.id)))

instance : IsTotal Task topRel :=
  ⟨by intro a b; unfold topRel; omega⟩

instance : IsTrans Task topRel :=
  ⟨by intro a b c hab hbc; unfold topRel at hab hbc ⊢; omega⟩

/-- Modelled from the spec: `crud.get_top_priority_tasks` returns the `n`
tasks of the owner with highest priority, ordered by descending priority
with the deterministic id tie-break. -/
def get_top_priority_tasks (db : DB) (user_id : Int) (n : Nat) : List Task :=
  (List.insertionSort topRel
    (db.tasks.filter (fun t => decide (t.owner_id = user_id)))).take n

/-- `GET /tasks/top_priority/`: the ranking applied to the authenticated
user. -/
def read_top_priority_tasks (db : DB) (current_user : User) (n : Nat) : List Task :=
  get_top_priority_tasks db current_user.id n

/-- `GET /tasks/top_priority/` with the query parameter `n` omitted: the
route declares `n: int = 5`. -/
def read_top_priority_tasks_default (db : DB) (current_user : User) : List Task :=
  read_top_priority_tasks db current_user 5

/-- The `current_user` argument of the update and delete handlers: either
a user resolved by dependency injection, or the `Depends(get_current_user)`
marker object that is the Python default value of the parameter and is
what the handler receives when called directly from Python code. -/
inductive CurrentUserArg where
  | user (u : User)
  | dependsDefault
deriving Repr, DecidableEq

/-- Attribute access `current_user.id`: on the `Depends` marker object the
attribute does not exist, so the access raises AttributeError (`none`). -/
def currentUserId : CurrentUserArg → Option Int
  | .user u => some u.id
  | .dependsDefault => none

/-- Modelled from the spec: `crud.update_task` applies the non-null fields
of the body to the stored task and returns the updated row.  In `main.py`
this function is shadowed by the route handler of the same name and is
never actually reached. -/
def Crud.update_task (db : DB) (task_id : Int) (task : TaskUpdate) : Option (Task × DB) :=
  match get_task db task_id with
  | none => none
  | some t =>
    let t1 : Task := { t with title := task.title.getD t.title,
                              description :=
                                match task.description with
                                | none => t.description
                                | some d => some d,
                              status := task.status.getD t.status,
                              priority := task.priority.getD t.priority }
    some (t1, { db with tasks := db.tasks.map (fun x => if x.id = task_id then t1 else x) })

/-- Modelled from the spec: `crud.delete_task` removes the stored task and
returns its representation.  In `main.py` this function is shadowed by the
route handler of the same name and is never actually reached. -/
def Crud.delete_task (db : DB) (task_id : Int) : Option (Task × DB) :=
  match get_task db task_id with
  | none => none
  | some t =>
    some (t, { db with tasks := db.tasks.filter (fun x => decide (x.id ≠ task_id)) })

/-- `PUT /tasks/{task_id}` as written in `main.py`: after the 404 and 400
checks, the line `return update_task(db=db, task_id=task_id, task=task)`
resolves `update_task` to the route handler itself (the handler definition
shadows the imported `crud.update_task`), calling it with `current_user`
left at its `Depends` default; the fuel argument bounds the Python call
stack. -/
def update_task (fuel : Nat) (db : DB) (task_id : Int) (task : TaskUpdate)
    (current_user : CurrentUserArg) : Resp Task :=
  match fuel with
  | 0 => .crash "RecursionError: maximum recursion depth exceeded"
  | fuel + 1 =>
    match get_task db task_id with
    | none => .err 404 "Task not found" []
    | some db_task =>
      match currentUserId current_user with
      | none => .crash "AttributeError: Depends object has no attribute id"
      | some uid =>
        if db_task.owner_id ≠ uid then .err 400 "Not enough permissions" []
        else update_task fuel db task_id task .dependsDefault

/-- `DELETE /tasks/{task_id}` as written in `main.py`: after the 404 and
400 checks, the line `return delete_task(db=db, task_id=task_id)` resolves
`delete_task` to the route handler itself (the handler definition shadows
the imported `crud.delete_task`), calling it with `current_user` left at
its `Depends` default; the fuel argument bounds the Python call stack. -/
def delete_task (fuel : Nat) (db : DB) (task_id : Int)
    (current_user : CurrentUserArg) : Resp Task :=
  match fuel with
  | 0 => .crash "RecursionError: maximum recursion depth exceeded"
  | fuel + 1 =>
    match get_task db task_id with
    | none => .err 404 "Task not found" []
    | some db_task =>
      match currentUserId current_user with
      | none => .crash "AttributeError: Depends object has no attribute id"
      | some uid =>
        if db_task.owner_id ≠ uid then .err 400 "Not enough permissions" []
        else delete_task fuel db task_id .dependsDefault

/-- Modelled from the spec: a cache key is the endpoint identity, the full
parameter tuple (rendered to strings) and the calling user identity; the
`fastapi_cache` implementation behind `@cache(expire=30)` is an external
library, not part of the source tree. -/
structure CacheKey where
  endpoint : String
  params : List String
  user_id : Int
deriving Repr, DecidableEq

/-- A cache entry: key, stored value, and the time it was stored. -/
structure CacheEntry (α : Type) where
  key : CacheKey
  value : α
  stored_at : Nat
deriving Repr, DecidableEq

/-- The cache TTL of the two read endpoints: `@cache(expire=30)`. -/
def cacheTTL : Nat := 30

/-- Modelled from the spec: cache lookup returns the value stored under
the key when one exists and has not yet expired (strictly within the TTL
window). -/
def cacheLookup {α : Type} (c : List (CacheEntry α)) (k : CacheKey) (now : Nat) : Option α :=
  match c.find? (fun e => decide (e.key = k) && decide (now < e.stored_at + cacheTTL)) with
  | some e => some e.value
  | none => none

/-- Modelled from the spec: `get_or_compute` — on a hit within the TTL,
return the stored result without invoking the computation (the returned
Bool records whether the computation ran); on a miss or expiry, compute,
store under the key (replacing any previous entry for that key), and
return. -/
def get_or_compute {α : Type} (c : List (CacheEntry α)) (k : CacheKey) (now : Nat)
    (compute : Unit → α) : α × Bool × List (CacheEntry α) :=
  match cacheLookup c k now with
  | some v => (v, false, c)
  | none =>
    let v := compute ()
    (v, true, { key := k, value := v, stored_at := now } :: c.filter (fun e => decide (e.key ≠ k)))

/-- Rendering of an optional string parameter into the cache key. -/
def optStr : Option String → String
  | none => "None"
  | some s => "Some " ++ s

/-- The cache key of `GET /tasks/`: endpoint name, every query parameter,
and the resolved user identity. -/
def read_tasks_key (skip limit : Nat) (sort_by sort_order search status : Option String)
    (uid : Int) : CacheKey :=
  { endpoint := "read_tasks",
    params := [toString skip, toString limit, optStr sort_by, optStr sort_order,
               optStr search, optStr status],
    user_id := uid }

/-- The cache key of `GET /tasks/top_priority/`. -/
def read_top_priority_key (n : Nat) (uid : Int) : CacheKey :=
  { endpoint := "read_top_priority_tasks", params := [toString n], user_id := uid }

/-- `GET /tasks/` behind `@cache(expire=30)`: look up the key built from
all parameters and the identity; on miss run the query engine and store
the result.  Returns the response, whether the query engine ran, and the
new cache state. -/
def read_tasks_cached (c : List (CacheEntry (List Task))) (db : DB) (skip limit : Nat)
    (sort_by sort_order search status : Option String) (current_user : User) (now : Nat) :
    List Task × Bool × List (CacheEntry (List Task)) :=
  get_or_compute c (read_tasks_key skip limit sort_by sort_order search status current_user.id)
    now (fun _ => read_tasks db skip limit sort_by sort_order search status current_user)

/-- `GET /tasks/top_priority/` behind `@cache(expire=30)`. -/
def read_top_priority_tasks_cached (c : List (CacheEntry (List Task))) (db : DB) (n : Nat)
    (current_user : User) (now : Nat) :
    List Task × Bool × List (CacheEntry (List Task)) :=
  get_or_compute c (read_top_priority_key n current_user.id) now
    (fun _ => read_top_priority_tasks db current_user n)

/-! Concrete fixtures used by the witness theorems. -/

/-- A registered user, id 1. -/
def aliceU : User :=
  { id := 1, email := "alice@x.com", hashed_password := get_password_hash "pw1" }

/-- A second registered user, id 2. -/
def bobU : User :=
  { id := 2, email := "bob@x.com", hashed_password := get_password_hash "pw2" }

/-- A task owned by user 1. -/
def taskA : Task :=
  { id := 1, owner_id := 1, title := "Alpha", description := none,
    status := "pending", priority := 3, created_at := 0 }

/-- A task owned by user 2. -/
def taskB : Task :=
  { id := 2, owner_id := 2, title := "Beta", description := none,
    status := "done", priority := 9, created_at := 1 }

/-- A second task owned by user 1, with higher priority than `taskA`. -/
def taskC : Task :=
  { id := 3, owner_id := 1, title := "Gamma", description := none,
    status := "done", priority := 5, created_at := 2 }

/-- A small store with two users and three tasks. -/
def dbAB : DB := { users := [aliceU, bobU], tasks := [taskA, taskB, taskC] }

/-- An update body with every field absent. -/
def tuEmpty : TaskUpdate :=
  { title := none, description := none, status := none, priority := none }

/-- A creation body with no priority given. -/
def tcNoPrio : TaskCreate :=
  { title := "New", description := none, status := "pending", priority := none }

/-- A creation body with priority 7. -/
def tcPrio7 : TaskCreate :=
  { title := "New", description := none, status := "pending", priority := some 7 }

/-- The listing user 1 gets from `GET /tasks/` with default parameters. -/
def vA : List Task := [taskA, taskC]

/-- The cache state after user 1's first `GET /tasks/` call at time 0. -/
def c1 : List (CacheEntry (List Task)) :=
  [{ key := read_tasks_key 0 100 none none none none aliceU.id, value := vA, stored_at := 0 }]

/-- The ranking user 1 gets from `GET /tasks/top_priority/` with n = 5. -/
def vTop : List Task := [taskC, taskA]

/-- The cache state after user 1's first `GET /tasks/top_priority/` call at
time 0. -/
def cTop : List (CacheEntry (List Task)) :=
  [{ key := read_top_priority_key 5 aliceU.id, value := vTop, stored_at := 0 }]

/-! Theorems. -/

/-- C9: for every store, every request body and every authenticated user,
the task handed to storage by `POST /tasks/` is owned by the authenticated
user — the owner id comes from the resolved identity, and the request body
has no way to choose a different owner. -/
theorem create_task_owner_from_identity (db : DB) (task : TaskCreate) (u : User) :
    (create_task db task u).1.owner_id = u.id ∧
    (create_task db task u).2.tasks = db.tasks ++ [(create_task db task u).1] := by
  unfold create_task create_user_task
  by_cases h : task.priority = none <;> simp [h]

/-- C7: `POST /tasks/` stores priority 1 when the body has no priority,
and passes a supplied priority through unchanged. -/
theorem create_task_priority_defaulting (db : DB) (task : TaskCreate) (u : User) :
    (task.priority = none → (create_task db task u).1.priority = 1) ∧
    (∀ p : Int, task.priority = some p → (create_task db task u).1.priority = p) := by
  constructor
  · intro h
    simp [create_task, create_user_task, h]
  · intro p h
    simp [create_task, create_user_task, h]

/-- Witness for C7 at concrete inputs: a body without priority is stored
with priority 1, and a body with priority 7 keeps it. -/
theorem create_task_priority_defaulting_witness :
    (create_task dbAB tcNoPrio aliceU).1.priority = 1 ∧
    (create_task dbAB tcPrio7 aliceU).1.priority = 7 :=
  ⟨(create_task_priority_defaulting dbAB tcNoPrio aliceU).1 rfl,
   (create_task_priority_defaulting dbAB tcPrio7 aliceU).2 7 rfl⟩

/-- C5: `POST /token` answers failed authentication with a 401 carrying
the `WWW-Authenticate: Bearer` header, and successful authentication with
a 200 body holding an access token and token_type "bearer". -/
theorem login_status_and_header (db : DB) (username password : String) :
    (authenticate_user db username password = none →
       login_for_access_token db username password =
         .err 401 "Incorrect username or password" [("WWW-Authenticate", "Bearer")]) ∧
    (∀ u : User, authenticate_user db username password = some u →
       login_for_access_token db username password =
         .ok { access_token := create_access_token u.email, token_type := "bearer" }) := by
  constructor
  · intro h
    simp [login_for_access_token, h]
  · intro u h
    simp [login_for_access_token, h]

/-- Witness for C5 at concrete inputs: a wrong password yields the 401
with the Bearer challenge, the right password yields the bearer token. -/
theorem login_status_and_header_witness :
    login_for_access_token dbAB "alice@x.com" "wrong" =
      .err 401 "Incorrect username or password" [("WWW-Authenticate", "Bearer")] ∧
    login_for_access_token dbAB "alice@x.com" "pw1" =
      .ok { access_token := create_access_token aliceU.email, token_type := "bearer" } :=
  ⟨(login_status_and_header dbAB "alice@x.com" "wrong").1 (by decide),
   (login_status_and_header dbAB "alice@x.com" "pw1").2 aliceU (by decide)⟩

/-- C6: `POST /register/` with an already-registered email fails with 400
"Email already registered" and leaves the store unchanged; with a fresh
email it returns the created user, which carries the requested email. -/
theorem register_duplicate_email (db : DB) (uc : UserCreate) :
    (∀ u0 : User, get_user_by_email db uc.email = some u0 →
       register db uc = (.err 400 "Email already registered" [], db)) ∧
    (get_user_by_email db uc.email = none →
       ∃ nu : User, register db uc = (.ok nu, { db with users := db.users ++ [nu] }) ∧
         nu.email = uc.email) := by
  constructor
  · intro u0 h
    simp [register, h]
  · intro h
    refine ⟨(create_user db uc).1, ?_, rfl⟩
    simp [register, h, create_user]

/-- Witness for C6 at concrete inputs: registering an existing email is
refused without changing the store; a fresh email is accepted. -/
theorem register_duplicate_email_witness :
    register dbAB { email := "alice@x.com", password := "pw9" } =
      (.err 400 "Email already registered" [], dbAB) ∧
    ∃ nu : User,
      register dbAB { email := "carol@x.com", password := "pw3" } =
        (.ok nu, { dbAB with users := dbAB.users ++ [nu] }) ∧ nu.email = "carol@x.com" :=
  ⟨(register_duplicate_email dbAB { email := "alice@x.com", password := "pw9" }).1
      aliceU (by decide),
   (register_duplicate_email dbAB { email := "carol@x.com", password := "pw3" }).2
      (by decide)⟩

/-- C2: on every single-task route, a missing task id yields 404 for any
authenticated user, and an existing task with a different owner yields a
400 "Not enough permissions" — a distinct error. -/
theorem single_task_not_found_and_forbidden (db : DB) (task_id : Int) (u : User)
    (tu : TaskUpdate) (fuel : Nat) :
    (get_task db task_id = none →
       read_task db task_id u = .err 404 "Task not found" [] ∧
       update_task (fuel + 1) db task_id tu (.user u) = .err 404 "Task not found" [] ∧
       delete_task (fuel + 1) db task_id (.user u) = .err 404 "Task not found" []) ∧
    (∀ t : Task, get_task db task_id = some t → t.owner_id ≠ u.id →
       read_task db task_id u = .err 400 "Not enough permissions" [] ∧
       update_task (fuel + 1) db task_id tu (.user u) = .err 400 "Not enough permissions" [] ∧
       delete_task (fuel + 1) db task_id (.user u) = .err 400 "Not enough permissions" []) := by
  constructor
  · intro h
    refine ⟨?_, ?_, ?_⟩ <;> simp [read_task, update_task, delete_task, h]
  · intro t h hw
    refine ⟨?_, ?_, ?_⟩ <;>
      simp [read_task, update_task, delete_task, h, currentUserId, hw]

/-- Witness for C2 at concrete inputs: task 99 does not exist, so user 2
gets a 404; task 1 exists and is owned by user 1, so user 2 gets a 400. -/
theorem single_task_not_found_and_forbidden_witness :
    (read_task dbAB 99 bobU = .err 404 "Task not found" [] ∧
       update_task 3 dbAB 99 tuEmpty (.user bobU) = .err 404 "Task not found" [] ∧
       delete_task 3 dbAB 99 (.user bobU) = .err 404 "Task not found" []) ∧
    (read_task dbAB 1 bobU = .err 400 "Not enough permissions" [] ∧
       update_task 3 dbAB 1 tuEmpty (.user bobU) = .err 400 "Not enough permissions" [] ∧
       delete_task 3 dbAB 1 (.user bobU) = .err 400 "Not enough permissions" []) :=
  ⟨(single_task_not_found_and_forbidden dbAB 99 bobU tuEmpty 2).1 (by decide),
   (single_task_not_found_and_forbidden dbAB 1 bobU tuEmpty 2).2 taskA
      (by decide) (by decide)⟩

/-- C10: on every single-task route the existence check runs first: a
missing id is a 404 for every authenticated user, and a 400 "Not enough
permissions" answer can only arise when the task exists. -/
theorem existence_check_precedes_ownership (db : DB) (task_id : Int)
    (tu : TaskUpdate) (fuel : Nat) :
    (get_task db task_id = none → ∀ u : User,
       read_task db task_id u = .err 404 "Task not found" [] ∧
       update_task (fuel + 1) db task_id tu (.user u) = .err 404 "Task not found" [] ∧
       delete_task (fuel + 1) db task_id (.user u) = .err 404 "Task not found" []) ∧
    (∀ u : User,
       (read_task db task_id u = .err 400 "Not enough permissions" [] →
          ∃ t : Task, get_task db task_id = some t) ∧
       (update_task (fuel + 1) db task_id tu (.user u) =
            .err 400 "Not enough permissions" [] →
          ∃ t : Task, get_task db task_id = some t) ∧
       (delete_task (fuel + 1) db task_id (.user u) =
            .err 400 "Not enough permissions" [] →
          ∃ t : Task, get_task db task_id = some t)) := by
  constructor
  · intro h u
    refine ⟨?_, ?_, ?_⟩ <;> simp [read_task, update_task, delete_task, h]
  · intro u
    refine ⟨?_, ?_, ?_⟩ <;> intro h400 <;>
      cases hg : get_task db task_id with
      | some t => exact ⟨t, rfl⟩
      | none => simp [read_task, update_task, delete_task, hg] at h400

/-- Witness for C10 at concrete inputs: all three routes answer 404 on the
missing id 99 for both users, and the 400 answer on task 1 for user 2
comes with the task existing. -/
theorem existence_check_precedes_ownership_witness :
    (read_task dbAB 99 aliceU = .err 404 "Task not found" [] ∧
       update_task 3 dbAB 99 tuEmpty (.user aliceU) = .err 404 "Task not found" [] ∧
       delete_task 3 dbAB 99 (.user aliceU) = .err 404 "Task not found" []) ∧
    (∃ t : Task, get_task dbAB 1 = some t) :=
  ⟨(existence_check_precedes_ownership dbAB 99 tuEmpty 2).1 (by decide) aliceU,
   ((existence_check_precedes_ownership dbAB 1 tuEmpty 2).2 bobU).1 (by decide)⟩

/-- C1 is false of the code: in `main.py` the `PUT /tasks/{id}` and
`DELETE /tasks/{id}` handlers shadow the imported `crud.update_task` and
`crud.delete_task`, so after the 404/400 checks pass they call themselves
with `current_user` left at its `Depends` default, and the attribute
access `current_user.id` in the recursive call raises AttributeError: on
a store where task 1 exists and is owned by the requesting user 1, both
routes crash instead of returning the updated or deleted task with 200. -/
theorem update_delete_self_call_crash :
    update_task 10 dbAB 1 tuEmpty (.user aliceU) =
      .crash "AttributeError: Depends object has no attribute id" ∧
    delete_task 10 dbAB 1 (.user aliceU) =
      .crash "AttributeError: Depends object has no attribute id" := by
  constructor <;> decide

/-- Membership in the status filter stage implies membership upstream. -/
theorem mem_of_mem_filterStatus {status : Option String} {l : List Task} {t : Task}
    (h : t ∈ filterStatus status l) : t ∈ l := by
  cases status with
  | none => exact h
  | some s => exact (List.mem_filter.mp h).1

/-- Membership in the search filter stage implies membership upstream. -/
theorem mem_of_mem_filterSearch {search : Option String} {l : List Task} {t : Task}
    (h : t ∈ filterSearch search l) : t ∈ l := by
  cases search with
  | none => exact h
  | some q => exact (List.mem_filter.mp h).1

/-- Any task the query engine returns belongs to the requested owner. -/
theorem get_user_tasks_owner {db : DB} {user_id : Int} {skip limit : Nat}
    {sort_by sort_order search status : Option String} {t : Task}
    (h : t ∈ get_user_tasks db user_id skip limit sort_by sort_order search status) :
    t.owner_id = user_id := by
  unfold get_user_tasks at h
  have h1 := List.mem_of_mem_drop (List.mem_of_mem_take h)
  rw [List.mem_insertionSort] at h1
  have h2 := mem_of_mem_filterStatus (mem_of_mem_filterSearch h1)
  exact of_decide_eq_true (List.mem_filter.mp h2).2

/-- C3: for every user, every task of a different owner, and every
combination of the query parameters, `GET /tasks/` under that user never
returns the task. -/
theorem read_tasks_never_leaks (db : DB) (u : User) (t : Task) (skip limit : Nat)
    (sort_by sort_order search status : Option String) (h : t.owner_id ≠ u.id) :
    t ∉ read_tasks db skip limit sort_by sort_order search status u := by
  intro hmem
  exact h (get_user_tasks_owner hmem)

/-- Witness for C3 at concrete inputs: user 1 owns the returned tasks, so
user 2's task is absent from user 1's listing. -/
theorem read_tasks_never_leaks_witness :
    taskB.owner_id ≠ aliceU.id ∧
    taskB ∉ read_tasks dbAB 0 100 none none none none aliceU :=
  ⟨by decide, read_tasks_never_leaks dbAB aliceU taskB 0 100 none none none none (by decide)⟩

/-- C8: `GET /tasks/top_priority/` returns at most `n` tasks, all owned by
the caller, ordered by descending priority with ties ordered by the
deterministic id key; with `n` omitted the route uses 5. -/
theorem top_priority_ranking (db : DB) (u : User) (n : Nat) :
    (read_top_priority_tasks db u n).length ≤ n ∧
    (read_top_priority_tasks db u n).Pairwise
      (fun a b => b.priority ≤ a.priority ∧ (a.priority = b.priority → a.id ≤ b.id)) ∧
    (∀ t : Task, t ∈ read_top_priority_tasks db u n → t.owner_id = u.id) ∧
    read_top_priority_tasks_default db u = read_top_priority_tasks db u 5 := by
  refine ⟨List.length_take_le n _, ?_, ?_, rfl⟩
  · have hs := List.sorted_insertionSort topRel
      (db.tasks.filter (fun t => decide (t.owner_id = u.id)))
    have ht := hs.sublist
      (List.take_sublist n
        (List.insertionSort topRel (db.tasks.filter (fun t => decide (t.owner_id = u.id)))))
    refine ht.imp ?_
    intro a b hab
    unfold topRel at hab
    omega
  · intro t ht
    unfold read_top_priority_tasks get_top_priority_tasks at ht
    have h1 := List.mem_of_mem_take ht
    rw [List.mem_insertionSort] at h1
    exact of_decide_eq_true (List.mem_filter.mp h1).2

/-- Witness for C8 at concrete inputs: user 1's ranking lists the
priority-5 task before the priority-3 task, within the size bound, and
the member hypothesis is discharged on the head of that list. -/
theorem top_priority_ranking_witness :
    (read_top_priority_tasks dbAB aliceU 5).length ≤ 5 ∧
    taskC.owner_id = aliceU.id ∧
    read_top_priority_tasks_default dbAB aliceU = read_top_priority_tasks dbAB aliceU 5 :=
  ⟨(top_priority_ranking dbAB aliceU 5).1,
   (top_priority_ranking dbAB aliceU 5).2.2.1 taskC (by decide),
   (top_priority_ranking dbAB aliceU 5).2.2.2⟩

/-- A fresh entry at the head of the cache is found by lookup within the
TTL window. -/
theorem cacheLookup_cons_of_fresh {α : Type} (k : CacheKey) (v : α) (s : Nat)
    (rest : List (CacheEntry α)) (now1 : Nat) (h : now1 < s + cacheTTL) :
    cacheLookup ({ key := k, value := v, stored_at := s } :: rest) k now1 = some v := by
  unfold cacheLookup
  rw [List.find?_cons_of_pos]
  simp [h]

/-- After the TTL has elapsed, the entry stored at time `s` is no longer
found, and no other entry for the key survives the store step. -/
theorem cacheLookup_stale {α : Type} (k : CacheKey) (v : α) (s : Nat)
    (c : List (CacheEntry α)) (now1 : Nat) (h : s + cacheTTL ≤ now1) :
    cacheLookup ({ key := k, value := v, stored_at := s } ::
      c.filter (fun e => decide (e.key ≠ k))) k now1 = none := by
  unfold cacheLookup
  have hn : (({ key := k, value := v, stored_at := s } : CacheEntry α) ::
      c.filter (fun e => decide (e.key ≠ k))).find?
        (fun e => decide (e.key = k) && decide (now1 < e.stored_at + cacheTTL)) = none := by
    rw [List.find?_eq_none]
    intro x hx
    rcases List.mem_cons.mp hx with hx | hx
    · subst hx
      simp
      omega
    · have hk := (List.mem_filter.mp hx).2
      simp only [decide_eq_true_eq] at hk
      simp [hk]
  rw [hn]

/-- A computation stored by `get_or_compute` is served from the cache, for
any later computation function, at any time strictly within the TTL. -/
theorem get_or_compute_fresh_hit {α : Type} (c : List (CacheEntry α)) (k : CacheKey)
    (now : Nat) (f : Unit → α) (v : α) (c' : List (CacheEntry α))
    (hm : get_or_compute c k now f = (v, true, c'))
    (now1 : Nat) (h2 : now1 < now + cacheTTL) (g : Unit → α) :
    get_or_compute c' k now1 g = (v, false, c') := by
  unfold get_or_compute at hm
  cases hl : cacheLookup c k now with
  | some w =>
    rw [hl] at hm
    simp at hm
  | none =>
    rw [hl] at hm
    have hv : f () = v := congrArg (fun p => p.1) hm
    have hc : ({ key := k, value := f (), stored_at := now } : CacheEntry α) ::
        c.filter (fun e => decide (e.key ≠ k)) = c' := congrArg (fun p => p.2.2) hm
    unfold get_or_compute
    rw [← hc, cacheLookup_cons_of_fresh k (f ()) now _ now1 h2, hv]

/-- After the TTL has elapsed, `get_or_compute` runs the computation
again. -/
theorem get_or_compute_expired {α : Type} (c : List (CacheEntry α)) (k : CacheKey)
    (now : Nat) (f : Unit → α) (v : α) (c' : List (CacheEntry α))
    (hm : get_or_compute c k now f = (v, true, c'))
    (now1 : Nat) (h : now + cacheTTL ≤ now1) (g : Unit → α) :
    (get_or_compute c' k now1 g).2.1 = true := by
  unfold get_or_compute at hm
  cases hl : cacheLookup c k now with
  | some w =>
    rw [hl] at hm
    simp at hm
  | none =>
    rw [hl] at hm
    have hc : ({ key := k, value := f (), stored_at := now } : CacheEntry α) ::
        c.filter (fun e => decide (e.key ≠ k)) = c' := congrArg (fun p => p.2.2) hm
    unfold get_or_compute
    rw [← hc, cacheLookup_stale k (f ()) now c now1 h]

/-- C4: after a `GET /tasks/` or `GET /tasks/top_priority/` call that ran
the query and stored its result, an identical call (same parameters, same
identity) strictly within 30 time units returns the stored result without
running the query — even against a different store state — and leaves the
cache unchanged; once 30 time units have passed the query runs again; and
the cache keys of two distinct users always differ, so users never share
a cache slot. -/
theorem cache_behavior (c : List (CacheEntry (List Task))) (db db1 : DB)
    (skip limit : Nat) (sort_by sort_order search status : Option String)
    (u : User) (now : Nat) (v : List Task) (c' : List (CacheEntry (List Task)))
    (n : Nat) :
    (read_tasks_cached c db skip limit sort_by sort_order search status u now =
        (v, true, c') →
      (∀ now1 : Nat, now1 < now + cacheTTL →
        read_tasks_cached c' db1 skip limit sort_by sort_order search status u now1 =
          (v, false, c')) ∧
      (∀ now1 : Nat, now + cacheTTL ≤ now1 →
        (read_tasks_cached c' db1 skip limit sort_by sort_order search status u now1).2.1 =
          true)) ∧
    (read_top_priority_tasks_cached c db n u now = (v, true, c') →
      (∀ now1 : Nat, now1 < now + cacheTTL →
        read_top_priority_tasks_cached c' db1 n u now1 = (v, false, c')) ∧
      (∀ now1 : Nat, now + cacheTTL ≤ now1 →
        (read_top_priority_tasks_cached c' db1 n u now1).2.1 = true)) ∧
    (∀ u1 : User, u.id ≠ u1.id →
      read_tasks_key skip limit sort_by sort_order search status u.id ≠
        read_tasks_key skip limit sort_by sort_order search status u1.id ∧
      read_top_priority_key n u.id ≠ read_top_priority_key n u1.id) := by
  refine ⟨?_, ?_, ?_⟩
  · intro hm
    constructor
    · intro now1 h2
      exact get_or_compute_fresh_hit c _ now _ v c' hm now1 h2 _
    · intro now1 h
      exact get_or_compute_expired c _ now _ v c' hm now1 h _
  · intro hm
    constructor
    · intro now1 h2
      exact get_or_compute_fresh_hit c _ now _ v c' hm now1 h2 _
    · intro now1 h
      exact get_or_compute_expired c _ now _ v c' hm now1 h _
  · intro u1 h
    constructor <;> simp [read_tasks_key, read_top_priority_key, h]

/-- Witness for C4 at concrete inputs: after user 1's call at time 0
stores its result, the identical call at time 29 is served from the cache
without running the query, the identical call at time 30 runs the query
again, and user 2's key differs from user 1's. -/
theorem cache_behavior_witness :
    read_tasks_cached c1 dbAB 0 100 none none none none aliceU 29 = (vA, false, c1) ∧
    (read_tasks_cached c1 dbAB 0 100 none none none none aliceU 30).2.1 = true ∧
    read_top_priority_tasks_cached cTop dbAB 5 aliceU 29 = (vTop, false, cTop) ∧
    (read_top_priority_tasks_cached cTop dbAB 5 aliceU 30).2.1 = true ∧
    read_tasks_key 0 100 none none none none aliceU.id ≠
      read_tasks_key 0 100 none none none none bobU.id := by
  have hm : read_tasks_cached [] dbAB 0 100 none none none none aliceU 0 =
      (vA, true, c1) := by decide
  have hm2 : read_top_priority_tasks_cached [] dbAB 5 aliceU 0 =
      (vTop, true, cTop) := by decide
  refine ⟨((cache_behavior [] dbAB dbAB 0 100 none none none none aliceU 0 vA c1 5).1
             hm).1 29 (by decide),
          ((cache_behavior [] dbAB dbAB 0 100 none none none none aliceU 0 vA c1 5).1
             hm).2 30 (by decide),
          ((cache_behavior [] dbAB dbAB 0 100 none none none none aliceU 0 vTop cTop 5).2.1
             hm2).1 29 (by decide),
          ((cache_behavior [] dbAB dbAB 0 100 none none none none aliceU 0 vTop cTop 5).2.1
             hm2).2 30 (by decide),
          ((cache_behavior [] dbAB dbAB 0 100 none none none none aliceU 0 vA c1 5).2.2
             bobU (by decide)).1⟩

end TaskApi
